import Mathlib

/-!
A shallow embedding of the protoc-gen-rain code generator
(packages `generator` and `main` of the repository), together with
theorems settling the specification claims about it.

Sources embedded:
  * src/generator/generator.go      (command-line parsing, package naming,
                                     type-name index, API emission)
  * src/generator/descriptor.go     (descriptor wrapping, public imports)
  * src/generator/descriptor_file.go (go_package option, output file names)

Go maps are modelled as association lists where a later insertion of the
same key overwrites the earlier one; `g.Fail`/`g.Error` (which log and call
`os.Exit(1)`) are modelled as `Except.error` carrying the joined message.
Emission through `g.P` is modelled as a list of emitted lines (the
generator never changes its indent inside the embedded functions).
-/

namespace ProtocGenRain

set_option linter.unusedVariables false

/-! ### Association-list model of Go maps -/

/-- Lookup in an association list modelling a Go map. -/
def lookupA {α : Type} (m : List (String × α)) (k : String) : Option α :=
  (m.find? (fun p => p.1 == k)).map (fun p => p.2)

/-- Insertion into an association list modelling a Go map: an assignment
`m[k] = v` overwrites any previous binding of `k`. -/
def insertA {α : Type} (m : List (String × α)) (k : String) (v : α) : List (String × α) :=
  (k, v) :: m.filter (fun p => p.1 ≠ k)

/-- Insertion into a Go `map[string]bool` used as a set. -/
def insertS (m : List String) (k : String) : List String :=
  if m.contains k then m else k :: m

/-! ### Models of the Go strings/path standard-library functions

The Go standard-library string functions used by the source are modelled
on the character list underlying `String`, so that every definition
evaluates inside the kernel. -/

/-- The text before and after the first occurrence of the (non-empty)
separator, or `none` when the separator does not occur. -/
def splitFirst (sep : List Char) : List Char → Option (List Char × List Char)
  | [] => none
  | c :: rest =>
    if sep.isPrefixOf (c :: rest) then some ([], (c :: rest).drop sep.length)
    else
      match splitFirst sep rest with
      | none => none
      | some (b, a) => some (c :: b, a)

/-- Fuelled splitting loop; the fuel `length + 1` always suffices for a
non-empty separator. -/
def splitAllFuel (sep : List Char) : Nat → List Char → List (List Char)
  | 0, l => [l]
  | fuel + 1, l =>
    match splitFirst sep l with
    | none => [l]
    | some (b, a) => b :: splitAllFuel sep fuel a

/-- Model of Go's `strings.Split` for a non-empty separator: the text
between consecutive non-overlapping occurrences of `sep`. -/
def strSplit (s sep : String) : List String :=
  (splitAllFuel sep.data (s.data.length + 1) s.data).map String.mk

/-- Model of Go's `strings.ToLower` (ASCII suffices for the source's
uses). -/
def strToLower (s : String) : String :=
  String.mk (s.data.map Char.toLower)

/-- Model of Go's `strings.HasPrefix`. -/
def strHasPrefix (s pfx : String) : Bool :=
  pfx.data.isPrefixOf s.data

/-- Model of Go's `strings.TrimPrefix`. -/
def strTrimPrefix (s pfx : String) : String :=
  if strHasPrefix s pfx then String.mk (s.data.drop pfx.data.length) else s

/-- Drop the last `n` characters (used for Go's slicing
`name[:len(name)-len(ext)]`). -/
def strDropRight (s : String) (n : Nat) : String :=
  String.mk (s.data.take (s.data.length - n))

/-! ### String helpers

The helpers `CamelCase`, `CamelCaseSlice`, `dottedSlice`, `baseName` and
`cleanPackageName` are called throughout src/generator/generator.go but their
defining file of this repository is not under src/; they are modelled from
the spec here. -/

/-- Capitalize the first character of a string. -/
def capitalize (s : String) : String :=
  match s.data with
  | [] => ""
  | c :: cs => String.mk (c.toUpper :: cs)

/-- Modelled from the spec: the target-language name renaming ("The full type
name, CamelCased"); the helper `CamelCase` of this repository is not under
src/.  Underscore-separated segments are capitalized and concatenated. -/
def CamelCase (s : String) : String :=
  String.join ((strSplit s "_").map capitalize)

/-- Modelled from the spec: `CamelCaseSlice` (used on dotted type-name
vectors) is not under src/; the elements are joined with "_" and CamelCased. -/
def CamelCaseSlice (elem : List String) : String :=
  CamelCase (String.intercalate "_" elem)

/-- Modelled from the spec: `dottedSlice` joins the elements of a
"dotted fully-qualified name" with "."; the helper is not under src/. -/
def dottedSlice (elem : List String) : String :=
  String.intercalate "." elem

/-- Modelled from the spec ("a name derived from the file's base name"):
`baseName` of this repository is not under src/.  It keeps the last
"/"-component and drops the suffix after the last ".". -/
def baseName (name : String) : String :=
  let n := (strSplit name "/").getLastD name
  let parts := strSplit n "."
  if parts.length ≤ 1 then n else String.intercalate "." parts.dropLast

/-- Modelled from the spec ("collision-avoided" target-language package
names): `cleanPackageName` of this repository is not under src/.  Characters
that are not letters, digits or underscore become underscore, and a leading
digit gets an underscore prepended. -/
def cleanPackageName (name : String) : String :=
  let cleaned := String.mk (name.data.map (fun c =>
    if c.isAlphanum || c == '_' then c else '_'))
  match cleaned.data with
  | [] => cleaned
  | c :: _ => if c.isDigit then "_" ++ cleaned else cleaned

/-- Model of Go's `path.Dir` (standard library): everything before the last
"/", or "." when there is no slash.  (`path.Clean` normalisation of
degenerate inputs is not modelled.) -/
def pathDir (name : String) : String :=
  let parts := strSplit name "/"
  if parts.length ≤ 1 then "." else String.intercalate "/" parts.dropLast

/-- Model of Go's `path.Ext` (standard library): the suffix of the last
"/"-component starting at its final ".". -/
def pathExt (name : String) : String :=
  let base := (strSplit name "/").getLastD name
  let parts := strSplit base "."
  if parts.length ≤ 1 then "" else "." ++ parts.getLastD ""

/-! ### The descriptor data model (inputs of the generator) -/

/-- Field type categories of `descriptor.FieldDescriptorProto_Type`; only the
distinction needed by the embedded code (group fields versus the rest) is
kept, other categories are collapsed into `scalar`. -/
inductive FieldType where
  | group
  | message
  | enumField
  | scalar
deriving DecidableEq

/-- `descriptor.FieldDescriptorProto` (the attributes read by the embedded
code). -/
structure FieldDescriptorProto where
  name : String
  ftype : FieldType
  typeName : String
deriving DecidableEq

/-- `descriptor.MessageOptions` (only `map_entry` is read). -/
structure MessageOptions where
  mapEntry : Bool
deriving DecidableEq

/-- `descriptor.EnumDescriptorProto` (only the name is read by the embedded
code). -/
structure EnumDescriptorProto where
  name : String
deriving DecidableEq

/-- `descriptor.DescriptorProto`: a message declaration with nested
messages and enums. -/
inductive DescriptorProto where
  | mk (name : String) (field : List FieldDescriptorProto)
       (nestedType : List DescriptorProto) (enumType : List EnumDescriptorProto)
       (options : Option MessageOptions)

def DescriptorProto.name : DescriptorProto → String
  | .mk n _ _ _ _ => n

def DescriptorProto.field : DescriptorProto → List FieldDescriptorProto
  | .mk _ f _ _ _ => f

def DescriptorProto.nestedType : DescriptorProto → List DescriptorProto
  | .mk _ _ n _ _ => n

def DescriptorProto.enumType : DescriptorProto → List EnumDescriptorProto
  | .mk _ _ _ e _ => e

def DescriptorProto.options : DescriptorProto → Option MessageOptions
  | .mk _ _ _ _ o => o

/-- `descriptor.FileOptions` (only `go_package` is read). -/
structure FileOptions where
  goPackage : String
deriving DecidableEq

/-- `descriptor.FileDescriptorProto` (the attributes read by the embedded
code).  `package` is optional as in the proto world: `GetPackage` of an
absent package is the empty string, but `d.Package != nil` is a distinct
test in the source. -/
structure FileDescriptorProto where
  name : String
  pkg : Option String
  dependency : List String
  publicDependency : List Nat
  messageType : List DescriptorProto
  enumType : List EnumDescriptorProto
  extension : List FieldDescriptorProto
  options : Option FileOptions

def FileDescriptorProto.getPackage (f : FileDescriptorProto) : String :=
  f.pkg.getD ""

def FileDescriptorProto.getGoPackage (f : FileDescriptorProto) : String :=
  (f.options.map (fun o => o.goPackage)).getD ""

/-! ### descriptor_file.go -/

/-- `FileDescriptor.goPackageOption` (src/generator/descriptor_file.go:49-65).
`none` models `ok = false`; otherwise the pair is `(impPath, pkg)`. -/
def goPackageOption (d : FileDescriptorProto) : Option (String × String) :=
  let opt := d.getGoPackage
  if opt = "" then none
  else
    let parts := strSplit opt ";"
    if parts.length ≥ 2 then
      some (parts.headD "", cleanPackageName (String.intercalate ";" parts.tail))
    else
      let sl := strSplit opt "/"
      if sl.length ≥ 2 then some (opt, cleanPackageName (sl.getLastD opt))
      else some ("", cleanPackageName opt)

/-- The `pathType` of src/generator/generator.go:73-78. -/
inductive PathType where
  | pathTypeImport
  | pathTypeSourceRelative
deriving DecidableEq

/-- `FileDescriptor.goFileName` (src/generator/descriptor_file.go:68-96). -/
def goFileName (d : FileDescriptorProto) (pt : PathType) (typ : String) : String :=
  let name := d.name
  let ext := pathExt name
  let name := if ext = ".proto" ∨ ext = ".protodevel" then
      strDropRight name ext.data.length
    else name
  let name :=
    match d.pkg with
    | none => name
    | some p =>
      let pname := strToLower p
      let arr := strSplit name "/"
      if arr.length = 2 then pname ++ "/" ++ arr.getD 1 ""
      else pname ++ "/" ++ arr.headD ""
  let name := name ++ "." ++ typ ++ ".go"
  if pt = PathType.pathTypeSourceRelative then name
  else name

/-! ### CommandLineParameters (src/generator/generator.go:103-142) -/

/-- The generator fields set by `CommandLineParameters`. `importPfx` embeds
the field `ImportPrefix` of the source (renamed for Lean). -/
structure CLParams where
  param : List (String × String)
  importMap : List (String × String)
  importPfx : String
  packageImportPath : String
  ptype : PathType
deriving DecidableEq

/-- The first loop of `CommandLineParameters`: split the comma-separated
parameter into a key/value map (src/generator/generator.go:107-114). -/
def parseParam (parameter : String) : List (String × String) :=
  (strSplit parameter ",").foldl (fun m p =>
    let parts := strSplit p "="
    if parts.length ≤ 1 then insertA m p ""
    else insertA m (parts.headD "") (String.intercalate "=" parts.tail)) []

/-- One step of the key dispatch loop of `CommandLineParameters`
(src/generator/generator.go:117-137). -/
def clpStep (st : CLParams) (kv : String × String) : Except String CLParams :=
  let k := kv.1
  let v := kv.2
  if k = "import_prefix" then .ok { st with importPfx := v }
  else if k = "import_path" then .ok { st with packageImportPath := v }
  else if k = "paths" then
    if v = "import" then .ok { st with ptype := PathType.pathTypeImport }
    else if v = "source_relative" then .ok { st with ptype := PathType.pathTypeSourceRelative }
    else .error ("Unknown path type \"" ++ v ++ "\": want \"import\" or \"source_relative\".")
  else if k.data.head? = some 'M' then
    .ok { st with importMap := insertA st.importMap (String.mk (k.data.drop 1)) v }
  else .ok st

/-- `Generator.CommandLineParameters` (src/generator/generator.go:106-142);
`g.Fail` on an unknown `paths` value becomes `Except.error`.  After the
dispatch loop an empty import prefix defaults to `Param["repo"] + "/"`. -/
def commandLineParameters (parameter : String) : Except String CLParams :=
  match List.foldlM clpStep
      { param := parseParam parameter, importMap := [], importPfx := "",
        packageImportPath := "", ptype := PathType.pathTypeImport }
      (parseParam parameter) with
  | .error e => .error e
  | .ok st =>
    .ok (if st.importPfx = "" then
      { st with importPfx := (lookupA st.param "repo").getD "" ++ "/" }
    else st)

/-! ### Import block emission (src/generator/generator.go:1027-1055)

The `imports` argument is the key list of the `map[GoPackageName]GoPackageName`
built by `generateImports`; the source ranges over its keys. -/

/-- `Generator.generateModelImports` (src/generator/generator.go:1027-1039). -/
def generateModelImports (importPfx : String) (imports : List String) : List String :=
  if imports.length = 0 then []
  else ["import ("] ++ imports.map (fun p => "\"" ++ importPfx ++ p ++ "\"")
       ++ [")", "", ""]

/-- `Generator.generateApiImports` (src/generator/generator.go:1041-1055);
`repo` is `g.Param["repo"]`. -/
def generateApiImports (importPfx repo : String) (imports : List String)
    (hasBinding : Bool) : List String :=
  ["import (", "\"github.com/gin-gonic/gin\""]
  ++ (if hasBinding then ["\"github.com/gin-gonic/gin/binding\""] else [])
  ++ [""]
  ++ ["\"" ++ repo ++ "/router\""]
  ++ imports.map (fun p => "\"" ++ importPfx ++ p ++ "\"")
  ++ [")", "", ""]

/-! ### The handler manifest (src/generator/generator.go:593-609)

The file system is modelled as an association list from path to content,
with the content already at the level `json.Unmarshal` produces: `none`
stands for bytes that do not parse as a `map[string]string`, `some m` for
the parsed map.  `os.ReadFile` failing (no such file) is an absent key. -/

/-- A modelled file system holding JSON string-map files. -/
def JsonFS : Type := List (String × Option (List (String × String)))

/-- `Generator.generateHandler` (src/generator/generator.go:593-609):
read `<path>/handler.json`, fail if absent or unparsable, insert the
`k ↦ v` entry, write the file back. -/
def generateHandler (fs : JsonFS) (pathParam k v : String) : Except String JsonFS :=
  let p := pathParam ++ "/handler.json"
  match lookupA fs p with
  | none => .error "handler.json file not found"
  | some none => .error "handler.json file content error"
  | some (some m) => .ok (insertA fs p (some (insertA m k v)))

/-! ### Descriptor wrapping (src/generator/descriptor.go)

Pointers of the Go object graph are replaced by values: the wrapped
descriptor carries the data `newDescriptor` computes from its parent
(structural path, dotted type-name vector, group flag), so `TypeName()`'s
parent walk is evaluated eagerly at construction. -/

/-- Structural path constants of descriptor.proto. Modelled from the spec
("comma-separated integer path mirroring its position in the source
declaration"): their defining file of this repository is not under src/. -/
def messagePath : Nat := 4

/-- Structural path constant for top-level enums (see `messagePath`). -/
def enumPath : Nat := 5

/-- Structural path constant for nested messages (see `messagePath`). -/
def messageMessagePath : Nat := 3

/-- Structural path constant for nested enums (see `messagePath`). -/
def messageEnumPath : Nat := 4

/-- The wrapped `Descriptor` of src/generator/descriptor.go:12-23, with the
parent pointer replaced by the eagerly computed `typename`, `path` and
`group` data. -/
structure WDescriptor where
  name : String
  field : List FieldDescriptorProto
  options : Option MessageOptions
  enumType : List EnumDescriptorProto
  typename : List String
  path : String
  group : Bool
  index : Nat
deriving DecidableEq

/-- `GetOptions().GetMapEntry()` on a wrapped descriptor. -/
def WDescriptor.mapEntry (d : WDescriptor) : Bool :=
  (d.options.map (fun o => o.mapEntry)).getD false

/-- `newDescriptor` (src/generator/descriptor.go:45-79): compute the path,
the dotted type-name vector, and the group flag (the parent declares a
group-typed field whose type name matches this message's fully-qualified
name). -/
def newWDescriptor (fpkg : Option String) (parent : Option WDescriptor)
    (d : DescriptorProto) (index : Nat) : WDescriptor :=
  let tn := match parent with
    | none => [d.name]
    | some p => p.typename ++ [d.name]
  let path := match parent with
    | none => toString messagePath ++ "," ++ toString index
    | some p => p.path ++ "," ++ toString messageMessagePath ++ "," ++ toString index
  let grp := match parent with
    | none => false
    | some p =>
      let parts := match fpkg with
        | some pkgName => pkgName :: tn
        | none => tn
      let exp := "." ++ dottedSlice parts
      p.field.any (fun fl => fl.ftype == FieldType.group && fl.typeName == exp)
  { name := d.name, field := d.field, options := d.options,
    enumType := d.enumType, typename := tn, path := path, group := grp,
    index := index }

mutual

/-- `wrapThisDescriptor` (src/generator/descriptor.go:91-98): append the
wrapped message, then recursively wrap its nested messages in order. -/
def wrapThisDescriptor (fpkg : Option String) (parent : Option WDescriptor)
    (index : Nat) : DescriptorProto → List WDescriptor
  | DescriptorProto.mk n fs nested es os =>
    let me := newWDescriptor fpkg parent (DescriptorProto.mk n fs nested es os) index
    me :: wrapNestedDescriptors fpkg me 0 nested

/-- The `for i, nested := range desc.NestedType` loop of
`wrapThisDescriptor`. -/
def wrapNestedDescriptors (fpkg : Option String) (me : WDescriptor)
    (i : Nat) : List DescriptorProto → List WDescriptor
  | [] => []
  | d :: rest =>
    wrapThisDescriptor fpkg (some me) i d ++ wrapNestedDescriptors fpkg me (i + 1) rest

end

/-- The `for i, desc := range file.MessageType` loop of `wrapDescriptors`
(src/generator/descriptor.go:82-88). -/
def wrapTopDescriptors (fpkg : Option String) (i : Nat) :
    List DescriptorProto → List WDescriptor
  | [] => []
  | d :: rest =>
    wrapThisDescriptor fpkg none i d ++ wrapTopDescriptors fpkg (i + 1) rest

/-- `wrapDescriptors` (src/generator/descriptor.go:82-88): the flat list of
all (top-level and nested) wrapped messages of a file, in declaration
(pre-)order. -/
def wrapDescriptors (f : FileDescriptorProto) : List WDescriptor :=
  wrapTopDescriptors f.pkg 0 f.messageType

/-- The wrapped `EnumDescriptor` of src/unnamed/part_002, with the parent
pointer replaced by the eagerly computed `typename` and `path`. -/
structure WEnum where
  name : String
  typename : List String
  path : String
deriving DecidableEq

/-- `newEnumDescriptor` (src/generator/descriptor.go:101-114). -/
def newEnumDescriptor (parent : Option WDescriptor) (e : EnumDescriptorProto)
    (index : Nat) : WEnum :=
  { name := e.name
    typename := match parent with
      | none => [e.name]
      | some p => p.typename ++ [e.name]
    path := match parent with
      | none => toString enumPath ++ "," ++ toString index
      | some p => p.path ++ "," ++ toString messageEnumPath ++ "," ++ toString index }

/-- `wrapEnumDescriptors` (src/generator/descriptor.go:117-130): top-level
enums first, then the enums declared in each wrapped message (in the order
of the flat message list). -/
def wrapEnumDescriptors (f : FileDescriptorProto) (descs : List WDescriptor) :
    List WEnum :=
  (f.enumType.enum.map (fun p => newEnumDescriptor none p.2 p.1))
  ++ descs.flatMap (fun d => d.enumType.enum.map (fun p => newEnumDescriptor (some d) p.2 p.1))

/-- The wrapped `ExtensionDescriptor`. Its `TypeName` method of this
repository is not under src/; modelled from the spec as the extension's
declared name. -/
structure WExt where
  name : String
  typename : List String
deriving DecidableEq

/-- `wrapExtensions` (src/generator/descriptor.go:133-139): the file's
top-level extension fields. -/
def wrapExtensions (f : FileDescriptorProto) : List WExt :=
  f.extension.map (fun x => { name := x.name, typename := [x.name] })

/-- The wrapped `FileDescriptor` of src/generator/descriptor_file.go:16-35
(the publicly-imported symbol list `imp` is computed separately by
`wrapImported`). -/
structure WFile where
  proto : FileDescriptorProto
  desc : List WDescriptor
  enum : List WEnum
  ext : List WExt
  importPath : String
  packageName : String

/-! ### WrapTypes (src/generator/generator.go:294-355) -/

/-- The import-path precedence of `WrapTypes`
(src/generator/generator.go:311-332): explicit `M<file>=<path>` mapping,
else the command-level `import_path` for files to generate, else the
`go_package` import path, else the file's directory. -/
def computeImportPath (importMap : List (String × String))
    (packageImportPath : String) (genFileNames : List String)
    (f : FileDescriptorProto) : String :=
  match lookupA importMap f.name with
  | some substitution => substitution
  | none =>
    if genFileNames.contains f.name ∧ packageImportPath ≠ "" then packageImportPath
    else match goPackageOption f with
      | some (p, _) => if p ≠ "" then p else pathDir f.name
      | none => pathDir f.name

/-- The per-file wrapping of `WrapTypes` (src/generator/generator.go:304-342):
compute the import path and wrap messages, enums and extensions.
`packageName` is assigned later by `SetPackageNames`. -/
def wrapFile (importMap : List (String × String)) (packageImportPath : String)
    (genFileNames : List String) (f : FileDescriptorProto) : WFile :=
  let ds := wrapDescriptors f
  { proto := f, desc := ds, enum := wrapEnumDescriptors f ds,
    ext := wrapExtensions f,
    importPath := computeImportPath importMap packageImportPath genFileNames f,
    packageName := "" }

/-- `g.allFilesByName` built by `WrapTypes`: a Go map from file name to
wrapped file. -/
def filesByName (allFiles : List WFile) : List (String × WFile) :=
  allFiles.foldl (fun m fd => insertA m fd.proto.name fd) []

/-- The `g.genFiles` loop of `WrapTypes` (src/generator/generator.go:347-355):
look every file-to-generate up by name, failing on a miss. -/
def collectGenFiles (byName : List (String × WFile)) :
    List String → Except String (List WFile)
  | [] => .ok []
  | n :: rest =>
    match lookupA byName n with
    | none => .error ("could not find file named " ++ n)
    | some fd =>
      match collectGenFiles byName rest with
      | .error e => .error e
      | .ok l => .ok (fd :: l)

/-- `Generator.WrapTypes` (src/generator/generator.go:297-355): wrap all
files of the request and collect the files to generate. -/
def wrapTypes (importMap : List (String × String)) (packageImportPath : String)
    (protoFiles : List FileDescriptorProto) (fileToGenerate : List String) :
    Except String (List WFile × List WFile) :=
  let allFiles := protoFiles.map (wrapFile importMap packageImportPath fileToGenerate)
  match collectGenFiles (filesByName allFiles) fileToGenerate with
  | .error e => .error e
  | .ok gen => .ok (allFiles, gen)

/-! ### Public imports (src/generator/descriptor.go:142-159) -/

/-- The kind of an object held by the global type-name index. -/
inductive ObjKind where
  | msg
  | enumObj
deriving DecidableEq

/-- The identity of an `Object` (message or enum): its kind, defining file
name, and dotted type-name vector.  Distinct Go heap objects of the graph
always differ in this triple. -/
structure ObjectRef where
  kind : ObjKind
  fileName : String
  typeName : List String
deriving DecidableEq

/-- The `Object` view of a wrapped message. -/
def objOfDesc (f : WFile) (d : WDescriptor) : ObjectRef :=
  { kind := ObjKind.msg, fileName := f.proto.name, typeName := d.typename }

/-- The `Object` view of a wrapped enum. -/
def objOfEnum (f : WFile) (e : WEnum) : ObjectRef :=
  { kind := ObjKind.enumObj, fileName := f.proto.name, typeName := e.typename }

/-- An `ImportedDescriptor` (src/unnamed/part_003): the importing file's
name together with the re-exported object. -/
structure ImportedObj where
  importingFile : String
  o : ObjectRef
deriving DecidableEq

/-- The per-dependency body of `wrapImported`
(src/generator/descriptor.go:145-157): all non-map-entry messages of the
flat message list, then all enums, then all top-level extensions of the
publicly imported file. -/
def importedOfDep (importingFile : String) (df : WFile) : List ImportedObj :=
  (df.desc.filter (fun d => !(WDescriptor.mapEntry d))).map
    (fun d => { importingFile := importingFile, o := objOfDesc df d })
  ++ df.enum.map (fun e => { importingFile := importingFile, o := objOfEnum df e })
  ++ df.ext.map (fun x =>
      { importingFile := importingFile,
        o := { kind := ObjKind.msg, fileName := df.proto.name, typeName := x.typename } })

/-- The `for _, index := range file.PublicDependency` loop of `wrapImported`.
An out-of-range dependency index or unknown dependency file makes the Go
code dereference nil and crash; this is modelled as `Except.error`. -/
def wrapImportedGo (byName : List (String × WFile)) (importingFile : String)
    (dependency : List String) : List Nat → Except String (List ImportedObj)
  | [] => .ok []
  | i :: rest =>
    match dependency.get? i with
    | none => .error "index out of range"
    | some dn =>
      match lookupA byName dn with
      | none => .error "nil file descriptor"
      | some df =>
        match wrapImportedGo byName importingFile dependency rest with
        | .error e => .error e
        | .ok tail => .ok (importedOfDep importingFile df ++ tail)

/-- `wrapImported` (src/generator/descriptor.go:142-159): the types that
are publicly imported into `file`. -/
def wrapImported (byName : List (String × WFile)) (file : WFile) :
    Except String (List ImportedObj) :=
  wrapImportedGo byName file.proto.name file.proto.dependency
    file.proto.publicDependency

/-! ### The global type-name index (src/generator/generator.go:388-420) -/

/-- The `dottedPkg` prefix of `BuildTypeNameMap`
(src/generator/generator.go:397-400). -/
def dottedPkg (f : FileDescriptorProto) : String :=
  let dp := "." ++ f.getPackage
  if dp ≠ "." then dp ++ "." else dp

/-- The insertion sequence of `BuildTypeNameMap`: for every wrapped file,
its enums then its messages, keyed by the dotted fully-qualified name. -/
def typeEntries (files : List WFile) : List (String × ObjectRef) :=
  files.flatMap (fun f =>
    f.enum.map (fun e => (dottedPkg f.proto ++ dottedSlice e.typename, objOfEnum f e))
    ++ f.desc.map (fun d => (dottedPkg f.proto ++ dottedSlice d.typename, objOfDesc f d)))

/-- `Generator.BuildTypeNameMap` (src/generator/generator.go:391-410): build
the map from dotted fully-qualified names to objects by inserting every
entry in sequence (a later entry with the same name overwrites). -/
def buildTypeNameMap (files : List WFile) : List (String × ObjectRef) :=
  (typeEntries files).foldl (fun m kv => insertA m kv.1 kv.2) []

/-- `Generator.ObjectNamed` (src/generator/generator.go:414-420): look a
fully-qualified name up, failing fatally on a miss. -/
def objectNamed (m : List (String × ObjectRef)) (typeName : String) :
    Except String ObjectRef :=
  match lookupA m typeName with
  | some o => .ok o
  | none => .error ("can\x27t find object with type " ++ typeName)

/-! ### SetPackageNames (src/generator/generator.go:228-292) -/

/-- `Generator.defaultGoPackage` (src/generator/generator.go:228-234): the
package name derived from the command-line `import_path`. -/
def defaultGoPackage (packageImportPath : String) : String :=
  let p := (strSplit packageImportPath "/").getLastD packageImportPath
  cleanPackageName p

/-- The first loop of `SetPackageNames`
(src/generator/generator.go:243-248): the `go_package` name of each import
path seen among the files to generate (later files overwrite). -/
def buildDefaultPackageNames (genFiles : List WFile) : List (String × String) :=
  genFiles.foldl (fun m f =>
    match goPackageOption f.proto with
    | some (_, p) => insertA m f.importPath p
    | none => m) []

/-- The package-identity precedence of `SetPackageNames`
(src/generator/generator.go:249-273): own `go_package` name, else a
`go_package` name of another file with the same import path, else the
command-line default package, else the declared proto package, else the
file's base name. -/
def assignPackageNames (packageImportPath : String) (genFiles : List WFile) :
    List WFile :=
  let dpn := buildDefaultPackageNames genFiles
  genFiles.map (fun f =>
    match goPackageOption f.proto with
    | some (_, p) => { f with packageName := p }
    | none =>
      match lookupA dpn f.importPath with
      | some p => { f with packageName := p }
      | none =>
        let p := defaultGoPackage packageImportPath
        if p ≠ "" then { f with packageName := p }
        else if f.proto.getPackage ≠ "" then
          { f with packageName := cleanPackageName f.proto.getPackage }
        else { f with packageName := cleanPackageName (baseName f.proto.name) })

/-- The consistency check of `SetPackageNames`
(src/generator/generator.go:276-283): every further file to generate must
match the first file's import path and package name. -/
def checkConsistent (f0 : WFile) : List WFile → Except String Unit
  | [] => .ok ()
  | f :: rest =>
    if f0.importPath ≠ f.importPath then
      .error ("inconsistent package import paths: " ++ f0.importPath ++ ", " ++ f.importPath)
    else if f0.packageName ≠ f.packageName then
      .error ("inconsistent package names: " ++ f0.packageName ++ ", " ++ f.packageName)
    else checkConsistent f0 rest

/-- `Generator.SetPackageNames` (src/generator/generator.go:239-292): assign
package names to the files to generate and check consistency; the result
pairs `g.outputImportPath` (overwritten to the first file's *name*, line
241) with the assigned files.  The Go code indexes `genFiles[0]` and would
crash on an empty list; `main` guarantees non-emptiness. -/
def setPackageNames (packageImportPath : String) (genFiles : List WFile) :
    Except String (String × List WFile) :=
  match assignPackageNames packageImportPath genFiles with
  | [] => .error "no files to generate"
  | f0 :: rest =>
    match checkConsistent f0 rest with
    | .error e => .error e
    | .ok _ => .ok (f0.proto.name, f0 :: rest)

/-! ### Per-file generator state and type-name resolution
(src/generator/generator.go:144-224, 1190-1205) -/

/-- `isGoPredeclaredIdentifier` (src/generator/generator.go:184-224). -/
def isGoPredeclaredIdentifier : List String :=
  ["append", "bool", "byte", "cap", "close", "complex", "complex128",
   "complex64", "copy", "delete", "error", "false", "float32", "float64",
   "imag", "int", "int16", "int32", "int64", "int8", "iota", "len", "make",
   "new", "nil", "panic", "print", "println", "real", "recover", "rune",
   "string", "true", "uint", "uint16", "uint32", "uint64", "uint8", "uintptr"]

/-- The mutable generator state read and written while emitting one file
(fields of `Generator`, src/generator/generator.go:44-71).  `genErrorCode`
models the environment variable `GEN_ERROR_CODE` read by
`generateClientMethod` via `os.Getenv`. -/
structure GenState where
  typeNameToObject : List (String × ObjectRef)
  fileDesc : List WDescriptor
  outputImportPath : String
  packageNames : List (String × String)
  usedPackageNames : List String
  usedPackages : List String
  addedImports : List String
  genErrorCode : String
deriving DecidableEq

/-- The collision loop of `GoPackageName`
(src/generator/generator.go:165-167): the first of `orig`, `orig1`,
`orig2`, ... that is neither used nor predeclared.  The candidate list is
long enough that one is always free. -/
def allocPackageName (bad : List String) (orig : String) : String :=
  match (orig :: (List.range (bad.length + 1)).map
      (fun i => orig ++ toString (i + 1))).find? (fun c => !(bad.contains c)) with
  | some c => c
  | none => orig

/-- `Generator.GoPackageName` (src/generator/generator.go:159-173): cached
name of a package, allocating a fresh collision-free name on a cache miss. -/
def goPackageNameSt (st : GenState) (importPath : String) : String × GenState :=
  match lookupA st.packageNames importPath with
  | some n => (n, st)
  | none =>
    let name := allocPackageName (st.usedPackageNames ++ isGoPredeclaredIdentifier)
      (cleanPackageName (baseName importPath))
    (name, { st with
      packageNames := insertA st.packageNames importPath name,
      usedPackageNames := name :: st.usedPackageNames })

/-- `Generator.RecordTypeUse` (src/generator/generator.go:1190-1205): record
the use of a named type, adding its defining file to the imports unless it
is the output file itself.  (Line 1196 overwrites the Go import path with
the defining file's *name*.) -/
def recordTypeUse (st : GenState) (t : String) : GenState :=
  match lookupA st.typeNameToObject t with
  | none => st
  | some o =>
    let importPath := o.fileName
    if importPath == st.outputImportPath then st
    else
      let st := { st with addedImports := insertS st.addedImports importPath }
      let (_, st) := goPackageNameSt st importPath
      { st with usedPackages := insertS st.usedPackages importPath }

/-- `Generator.DefaultPackageName` (src/generator/generator.go:147-156):
empty for objects of the output file, otherwise the package name of the
object's defining file followed by ".".  (Line 149 overwrites the import
path with the defining file's name, matching line 241.) -/
def defaultPackageNameSt (st : GenState) (obj : ObjectRef) : String × GenState :=
  let importPath := obj.fileName
  if importPath == st.outputImportPath then ("", st)
  else
    let (n, st) := goPackageNameSt st importPath
    (n ++ ".", st)

/-- `Generator.TypeName` (src/generator/generator.go:1113-1115). -/
def typeNameObj (st : GenState) (obj : ObjectRef) : String × GenState :=
  let (dp, st) := defaultPackageNameSt st obj
  (dp ++ CamelCaseSlice obj.typeName, st)

/-- `Generator.typeName` (src/generator/generator.go:673-676): record the
use and resolve through `ObjectNamed`, failing fatally on a miss. -/
def typeNameSt (st : GenState) (t : String) : Except String (String × GenState) :=
  let st := recordTypeUse st t
  match objectNamed st.typeNameToObject t with
  | .error e => .error e
  | .ok o => .ok (typeNameObj st o)

/-! ### generateClientMethod (src/generator/generator.go:700-850) -/

/-- `reservedClientName` (src/generator/generator.go:671): empty. -/
def reservedClientName : List String := []

/-- The HTTP-rule pattern oneof of the `google.api.http` annotation; every
pattern other than GET and POST (PUT, DELETE, PATCH, custom, unset) is
collapsed into `other`, which is all the embedded code distinguishes. -/
inductive HttpPattern where
  | get (url : String)
  | post (url : String)
  | other
deriving DecidableEq

/-- The `annotations.HttpRule` fields read by the embedded code. -/
structure HttpRule where
  pattern : HttpPattern
  responseBody : String
deriving DecidableEq

/-- `descriptor.MethodOptions`: presence of the `google.api.http`
extension. -/
structure MethodOptions where
  http : Option HttpRule
deriving DecidableEq

/-- `descriptor.MethodDescriptorProto` (the attributes read by the embedded
code). -/
structure MethodDescriptorProto where
  name : String
  inputType : String
  outputType : String
  options : Option MethodOptions
deriving DecidableEq

/-- The test `method.Options != nil && proto.HasExtension(method.Options,
annotations.E_Http)` plus the `*annotations.HttpRule` assertion
(src/generator/generator.go:757-759). -/
def hasHttpExt (m : MethodDescriptorProto) : Option HttpRule :=
  m.options.bind (fun o => o.http)

/-- The `needBind` computation of `generateClientMethod`
(src/generator/generator.go:712-732), scanning the current file's flat
message list: skip map entries; on the first message whose generated name
matches the input type, binding is skipped iff it declares no fields. -/
def findBindDesc (descs : List WDescriptor) (inType : String) : Option WDescriptor :=
  descs.find? (fun d => !(WDescriptor.mapEntry d) && CamelCaseSlice d.typename == inType)

/-- The marker rewrite and zero-field check of `generateClientMethod`
(src/generator/generator.go:712-732): returns the (possibly rewritten)
input type and the `needBind` flag. -/
def computeNeedBind (fileDesc : List WDescriptor) (inType : String) : String × Bool :=
  if inType == "types.Empty" || inType == "empty.Empty" then ("router.Empty", false)
  else
    match findBindDesc fileDesc inType with
    | some d => (inType, !(d.field.length == 0))
    | none => (inType, true)

/-- The `middleware` directive (src/generator/generator.go:742-745). -/
def middlewaresOf (ann : List (String × String)) : List String :=
  match lookupA ann "middleware" with
  | some val => strSplit val ","
  | none => []

/-- The `bindcheck` directive (src/generator/generator.go:747-750). -/
def bindCheckOf (ann : List (String × String)) : Bool :=
  match lookupA ann "bindcheck" with
  | some val => !(strToLower val == "false")
  | none => true

/-- The `binding` directive (src/generator/generator.go:752-755). -/
def bindingOf (ann : List (String × String)) : String :=
  (lookupA ann "binding").getD "json"

/-- The route-registration lines of `generateClientMethod`
(src/generator/generator.go:760-779): a GET or POST route, through
`router.Handle` when a middleware chain is present; no line for any other
pattern.  Returns `isGet` with the lines. -/
def routeLinesOf (pattern : HttpPattern) (middlewares : List String) :
    Bool × List String :=
  match pattern with
  | HttpPattern.get url =>
    (true,
     [if middlewares.length > 0 then
        "router.Handle(g, \"GET\", \"" ++ url ++ "\", []string\x7b\"" ++
          String.intercalate "\",\"" middlewares ++ "\"\x7d, func(ctx *gin.Context) \x7b"
      else "g.GET(\"" ++ url ++ "\", func(ctx *gin.Context) \x7b"])
  | HttpPattern.post url =>
    (false,
     [if middlewares.length > 0 then
        "router.Handle(g, \"POST\", \"" ++ url ++ "\", []string\x7b\"" ++
          String.intercalate "\",\"" middlewares ++ "\"\x7d, func(ctx *gin.Context) \x7b"
      else "g.POST(\"" ++ url ++ "\", func(ctx *gin.Context) \x7b"])
  | HttpPattern.other => (false, [])

/-- The bind-strategy switch of `generateClientMethod`
(src/generator/generator.go:790-808). -/
def bindStrategyOf (binding : String) : String × String :=
  match strToLower binding with
  | "form" => ("ShouldBindWith", "Form")
  | "query" => ("ShouldBindWith", "Query")
  | "formpost" => ("ShouldBindWith", "FormPost")
  | "formmultipart" => ("ShouldBindWith", "FormMultipart")
  | _ => ("ShouldBindBodyWith", "JSON")

/-- The allocation and binding lines of `generateClientMethod`
(src/generator/generator.go:789-833). -/
def bindSectionLines (needBind isGet bindCheck : Bool) (binding gec inType outType : String) :
    List String :=
  if needBind then
    let mthTy := bindStrategyOf binding
    ["input, output := " ++ inType ++ "\x7b\x7d, " ++ outType ++ "\x7b\x7d", ""]
    ++ (if !bindCheck then
          [if isGet then "_ = ctx.ShouldBindQuery(&input)"
           else "_ = ctx." ++ mthTy.1 ++ "(&input, binding." ++ mthTy.2 ++ ")"]
        else
          [if isGet then "if err := ctx.ShouldBindQuery(&input); err != nil \x7b"
           else "if err := ctx." ++ mthTy.1 ++ "(&input, binding." ++ mthTy.2 ++ "); err != nil \x7b",
           "router.Error(ctx, " ++ gec ++ ", err)", "return", "\x7d"])
    ++ [""]
  else
    ["input := " ++ inType ++ "\x7b\x7d", "var output " ++ outType, ""]

/-- The handler invocation and response lines of `generateClientMethod`
(src/generator/generator.go:835-845). -/
def handlerCallLines (noJSON : Bool) (methName gec : String) : List String :=
  if noJSON then ["_ = h." ++ methName ++ "(ctx, &input, &output)"]
  else
    ["err := h." ++ methName ++ "(ctx.Copy(), &input, &output)",
     "if err != nil \x7b", "router.Error(ctx, " ++ gec ++ ", err)", "return", "\x7d",
     "", "router.JSON(ctx, &output)"]

/-- `Generator.generateClientMethod` (src/generator/generator.go:700-850):
resolve the input and output types, decide whether binding is needed, read
the directive annotations, emit the route registration (failing fatally
with "option google.api.http not found" when the `google.api.http`
annotation is absent), the binding code, and the handler call; the result
is the updated state, the emitted lines and the `needBind` flag the method
returns. -/
def generateClientMethod (st : GenState) (reqServ servName : String)
    (method : MethodDescriptorProto) (customAnnotationMap : List (String × String)) :
    Except String (GenState × List String × Bool) :=
  let gec := if st.genErrorCode == "" then "500" else st.genErrorCode
  let methName := CamelCase method.name
  let methName := if reservedClientName.contains methName then methName ++ "_" else methName
  match typeNameSt st method.inputType with
  | .error e => .error e
  | .ok (inType0, st) =>
    let inNb := computeNeedBind st.fileDesc inType0
    let inType := inNb.1
    let needBind := inNb.2
    match typeNameSt st method.outputType with
    | .error e => .error e
    | .ok (outType0, st) =>
      let outType := strTrimPrefix outType0 (reqServ ++ ".")
      let middlewares := middlewaresOf customAnnotationMap
      let bindCheck := bindCheckOf customAnnotationMap
      let binding := bindingOf customAnnotationMap
      match hasHttpExt method with
      | none => .error "option google.api.http not found"
      | some opts =>
        let isRoute := routeLinesOf opts.pattern middlewares
        let isGet := isRoute.1
        let noJSON := opts.responseBody != "" && opts.responseBody != "json"
        let lines := isRoute.2
          ++ bindSectionLines needBind isGet bindCheck binding gec inType outType
          ++ handlerCallLines noJSON methName gec
          ++ ["\x7d)", ""]
        .ok (st, lines, needBind)

/-! ## Theorems settling the claims -/

/-! ### C9: the `paths` parameter and output file naming -/

/-- `goFileName` computes the same output name whatever the path type:
both branches of the final conditional return the same string
(src/generator/descriptor_file.go:91-95). -/
theorem goFileName_pathType_indep (d : FileDescriptorProto) (pt pt' : PathType)
    (typ : String) : goFileName d pt typ = goFileName d pt' typ := by
  unfold goFileName
  cases pt <;> cases pt' <;> rfl

/-- C9, counterexample: contrary to the claim, there is no input on which
choosing `import` versus `source_relative` yields different output file
names — `goFileName` returns identical names for every schema file and
artifact type. -/
theorem C9_counterexample :
    ¬ ∃ (d : FileDescriptorProto) (typ : String),
      goFileName d PathType.pathTypeImport typ ≠
        goFileName d PathType.pathTypeSourceRelative typ := by
  rintro ⟨d, typ, h⟩
  exact h (goFileName_pathType_indep d _ _ typ)

/-- C9, amended: the `paths` parameter accepts exactly `import` and
`source_relative` (any other value aborts fatally) and selects the path
type, but the selected path type has no effect on output file naming:
`goFileName` yields the same name under both values. -/
theorem C9_theorem :
    (∀ (d : FileDescriptorProto) (typ : String),
       goFileName d PathType.pathTypeImport typ =
         goFileName d PathType.pathTypeSourceRelative typ) ∧
    (∀ (st : CLParams) (v : String), v ≠ "import" → v ≠ "source_relative" →
       clpStep st ("paths", v) =
         .error ("Unknown path type \"" ++ v ++ "\": want \"import\" or \"source_relative\".")) ∧
    ((commandLineParameters "paths=import").map (fun st => st.ptype) =
       .ok PathType.pathTypeImport) ∧
    ((commandLineParameters "paths=source_relative").map (fun st => st.ptype) =
       .ok PathType.pathTypeSourceRelative) ∧
    (commandLineParameters "paths=web" =
       .error "Unknown path type \"web\": want \"import\" or \"source_relative\".") := by
  refine ⟨fun d typ => goFileName_pathType_indep d _ _ typ, ?_, rfl, rfl, rfl⟩
  intro st v h1 h2
  simp [clpStep, h1, h2]

/-- C9, witness: the amended theorem applied to a concrete file and a
concrete unknown path-type value. -/
theorem C9_witness :
    goFileName { name := "user/profile.proto", pkg := some "User", dependency := [],
                 publicDependency := [], messageType := [], enumType := [],
                 extension := [], options := none } PathType.pathTypeImport "model" =
      goFileName { name := "user/profile.proto", pkg := some "User", dependency := [],
                   publicDependency := [], messageType := [], enumType := [],
                   extension := [], options := none } PathType.pathTypeSourceRelative "model" ∧
    clpStep { param := [], importMap := [], importPfx := "", packageImportPath := "",
              ptype := PathType.pathTypeImport } ("paths", "web") =
      .error "Unknown path type \"web\": want \"import\" or \"source_relative\"." := by
  exact ⟨C9_theorem.1 _ "model",
    C9_theorem.2.1
      { param := [], importMap := [], importPfx := "", packageImportPath := "",
        ptype := PathType.pathTypeImport } "web" (by decide) (by decide)⟩

/-! ### C3: the handler manifest must already exist -/

/-- C3, counterexample: on a file system without the manifest, generating a
service aborts fatally with "handler.json file not found" instead of
creating the file. -/
theorem C3_counterexample :
    generateHandler ([] : JsonFS) "out" "out/user" "out" =
      .error "handler.json file not found" := rfl

/-- C3, amended: `generateHandler` requires `<path>/handler.json` to exist
already (it is created empty by the external driver script, not by the
generator): an absent file is a fatal "handler.json file not found" error
and unparsable content a fatal "handler.json file content error"; when the
file holds a parsed map the entry is inserted and the file written back. -/
theorem C3_theorem : ∀ (fs : JsonFS) (pathParam k v : String),
    (lookupA fs (pathParam ++ "/handler.json") = none →
      generateHandler fs pathParam k v = .error "handler.json file not found") ∧
    (lookupA fs (pathParam ++ "/handler.json") = some none →
      generateHandler fs pathParam k v = .error "handler.json file content error") ∧
    (∀ m, lookupA fs (pathParam ++ "/handler.json") = some (some m) →
      generateHandler fs pathParam k v =
        .ok (insertA fs (pathParam ++ "/handler.json") (some (insertA m k v)))) := by
  intro fs pathParam k v
  refine ⟨fun h => ?_, fun h => ?_, fun m h => ?_⟩ <;> simp [generateHandler, h]

/-- C3, witness: the amended theorem applied to a file system holding an
empty manifest, as the driver script creates it. -/
theorem C3_witness :
    generateHandler [("out/handler.json", some [])] "out" "out/user" "out" =
      .ok [("out/handler.json", some [("out/user", "out")])] := by
  have h := (C3_theorem [("out/handler.json", some [])] "out" "out/user" "out").2.2 [] (by rfl)
  simpa [insertA] using h

/-! ### C8: the import-path precedence of WrapTypes -/

/-- C8: the computed import path follows the precedence: an explicit
`M<file>=<path>` override wins; else the command-level `import_path`,
applied only to files in the to-generate set; else the import path of the
`go_package` option when non-empty; else the directory of the file name. -/
theorem C8_theorem : ∀ (im : List (String × String)) (pip : String)
    (gens : List String) (f : FileDescriptorProto),
    (∀ sub, lookupA im f.name = some sub → computeImportPath im pip gens f = sub) ∧
    (lookupA im f.name = none → f.name ∈ gens → pip ≠ "" →
       computeImportPath im pip gens f = pip) ∧
    (∀ p pk, lookupA im f.name = none →
       (f.name ∉ gens ∨ pip = "") →
       goPackageOption f = some (p, pk) → p ≠ "" →
       computeImportPath im pip gens f = p) ∧
    (lookupA im f.name = none →
       (f.name ∉ gens ∨ pip = "") →
       (∀ p pk, goPackageOption f = some (p, pk) → p = "") →
       computeImportPath im pip gens f = pathDir f.name) := by
  intro im pip gens f
  refine ⟨fun sub h => ?_, fun h h1 h2 => ?_, fun p pk h h1 h2 h3 => ?_, fun h h1 h2 => ?_⟩
  · simp [computeImportPath, h]
  · simp [computeImportPath, h, h1, h2]
  · rcases h1 with h1 | h1 <;> simp [computeImportPath, h, h1, h2, h3]
  · rcases hgo : goPackageOption f with _ | ⟨p, pk⟩
    · rcases h1 with h1 | h1 <;> simp [computeImportPath, h, h1, hgo]
    · have hp : p = "" := h2 p pk hgo
      rcases h1 with h1 | h1 <;> simp [computeImportPath, h, h1, hgo, hp]

/-- C8, witness: the precedence theorem applied to a concrete file carrying
a `go_package` option, with and without a command-level `import_path`. -/
theorem C8_witness :
    computeImportPath [("user.proto", "vendor/override")] "cmd/path" ["user.proto"]
      { name := "user.proto", pkg := some "user", dependency := [],
        publicDependency := [], messageType := [], enumType := [], extension := [],
        options := some { goPackage := "quux/bar" } } = "vendor/override" ∧
    computeImportPath [] "cmd/path" ["user.proto"]
      { name := "user.proto", pkg := some "user", dependency := [],
        publicDependency := [], messageType := [], enumType := [], extension := [],
        options := some { goPackage := "quux/bar" } } = "cmd/path" ∧
    computeImportPath [] "" ["user.proto"]
      { name := "user.proto", pkg := some "user", dependency := [],
        publicDependency := [], messageType := [], enumType := [], extension := [],
        options := some { goPackage := "quux/bar" } } = "quux/bar" ∧
    computeImportPath [] "" ["dir/user.proto"]
      { name := "dir/user.proto", pkg := some "user", dependency := [],
        publicDependency := [], messageType := [], enumType := [], extension := [],
        options := none } = "dir" := by
  refine ⟨(C8_theorem _ _ _ _).1 "vendor/override" (by rfl),
          (C8_theorem _ _ _ _).2.1 (by rfl) (by decide) (by decide),
          (C8_theorem _ _ _ _).2.2.1 "quux/bar" "bar" (by rfl) (.inr rfl) (by rfl) (by decide),
          ?_⟩
  have h := (C8_theorem [] "" ["dir/user.proto"]
    { name := "dir/user.proto", pkg := some "user", dependency := [],
      publicDependency := [], messageType := [], enumType := [], extension := [],
      options := none }).2.2.2 (by rfl) (.inr rfl)
    (by
      intro p pk hc
      rw [show goPackageOption
        { name := "dir/user.proto", pkg := some "user", dependency := [],
          publicDependency := [], messageType := [], enumType := [], extension := [],
          options := none } = none from rfl] at hc
      cases hc)
  have hdir : pathDir "dir/user.proto" = "dir" := rfl
  rw [hdir] at h
  exact h

/-! ### C10: the default import prefix and its use in the import blocks -/

/-- A `clpStep` on a key other than `import_prefix` leaves `importPfx` and
`param` unchanged. -/
theorem clpStep_preserves (st st' : CLParams) (kv : String × String)
    (hk : kv.1 ≠ "import_prefix") (h : clpStep st kv = .ok st') :
    st'.importPfx = st.importPfx ∧ st'.param = st.param := by
  unfold clpStep at h
  rw [if_neg hk] at h
  split_ifs at h <;> cases h <;> exact ⟨rfl, rfl⟩

/-- The dispatch loop of `CommandLineParameters` leaves `importPfx` and
`param` unchanged when no `import_prefix` key occurs. -/
theorem clpFold_preserves : ∀ (l : List (String × String)) (st0 st : CLParams),
    (∀ kv ∈ l, kv.1 ≠ "import_prefix") →
    List.foldlM clpStep st0 l = .ok st →
    st.importPfx = st0.importPfx ∧ st.param = st0.param := by
  intro l
  induction l with
  | nil =>
    intro st0 st _ h
    cases h
    exact ⟨rfl, rfl⟩
  | cons kv rest ih =>
    intro st0 st hk h
    rw [List.foldlM_cons] at h
    cases hstep : clpStep st0 kv with
    | error e =>
      rw [hstep] at h
      exact Except.noConfusion h
    | ok st1 =>
      rw [hstep] at h
      have h1 := clpStep_preserves st0 st1 kv (hk kv (List.mem_cons_self _ _)) hstep
      have h2 := ih st1 st (fun kv' hkv' => hk kv' (List.mem_cons_of_mem _ hkv')) h
      exact ⟨h2.1.trans h1.1, h2.2.trans h1.2⟩

/-- Every package of the `imports` map yields a prefixed line in the
model import block (src/generator/generator.go:1033-1035). -/
theorem mem_generateModelImports (pfx : String) (imports : List String)
    (p : String) (hp : p ∈ imports) :
    ("\"" ++ pfx ++ p ++ "\"") ∈ generateModelImports pfx imports := by
  unfold generateModelImports
  have hne : ¬ imports.length = 0 := by
    cases imports with
    | nil => cases hp
    | cons a l => simp
  rw [if_neg hne]
  simp only [List.mem_append, List.mem_map]
  exact Or.inl (Or.inr ⟨p, hp, rfl⟩)

/-- Every package of the `imports` map yields a prefixed line in the
API import block (src/generator/generator.go:1049-1051). -/
theorem mem_generateApiImports (pfx repo : String) (imports : List String)
    (hb : Bool) (p : String) (hp : p ∈ imports) :
    ("\"" ++ pfx ++ p ++ "\"") ∈ generateApiImports pfx repo imports hb := by
  unfold generateApiImports
  simp only [List.mem_append, List.mem_map]
  exact Or.inl (Or.inr ⟨p, hp, rfl⟩)

/-- C10: when the parameter string carries no `import_prefix` key, the
resulting import prefix is the `repo` parameter's value followed by "/"
(hence exactly "/" when `repo` is absent), and this prefix is prepended to
every dependency import path emitted in the model-file and API-file import
blocks. -/
theorem C10_theorem : ∀ (s : String) (st : CLParams),
    (∀ kv ∈ parseParam s, kv.1 ≠ "import_prefix") →
    commandLineParameters s = .ok st →
    st.importPfx = (lookupA (parseParam s) "repo").getD "" ++ "/" ∧
    (∀ (imports : List String), ∀ p ∈ imports,
       ("\"" ++ st.importPfx ++ p ++ "\"") ∈ generateModelImports st.importPfx imports) ∧
    (∀ (repo : String) (imports : List String) (hb : Bool), ∀ p ∈ imports,
       ("\"" ++ st.importPfx ++ p ++ "\"") ∈ generateApiImports st.importPfx repo imports hb) := by
  intro s st hk h
  unfold commandLineParameters at h
  cases hfold : List.foldlM clpStep
      { param := parseParam s, importMap := [], importPfx := "",
        packageImportPath := "", ptype := PathType.pathTypeImport } (parseParam s) with
  | error e =>
    rw [hfold] at h
    exact Except.noConfusion h
  | ok st1 =>
    rw [hfold] at h
    dsimp only at h
    have hpres := clpFold_preserves (parseParam s) _ st1 hk hfold
    have hp1 : st1.importPfx = "" := hpres.1
    have hp2 : st1.param = parseParam s := hpres.2
    rw [if_pos hp1] at h
    cases h
    refine ⟨?_, fun imports p hp => mem_generateModelImports _ imports p hp,
            fun repo imports hb p hp => mem_generateApiImports _ repo imports hb p hp⟩
    simp [hp2]

/-- C10, witness: the theorem applied to the parameter string the driver
script passes (`repo=...,path=...`), with a one-package import map. -/
theorem C10_witness :
    commandLineParameters "repo=github.com/x/y,path=out" =
      .ok { param := [("path", "out"), ("repo", "github.com/x/y")], importMap := [],
            importPfx := "github.com/x/y/", packageImportPath := "",
            ptype := PathType.pathTypeImport } ∧
    "\"github.com/x/y/user\"" ∈ generateModelImports "github.com/x/y/" ["user"] ∧
    "\"github.com/x/y/user\"" ∈ generateApiImports "github.com/x/y/" "github.com/x/y" ["user"] true := by
  refine ⟨rfl, ?_, ?_⟩
  · have h0 := C10_theorem "repo=github.com/x/y,path=out"
      { param := [("path", "out"), ("repo", "github.com/x/y")], importMap := [],
        importPfx := "github.com/x/y/", packageImportPath := "",
        ptype := PathType.pathTypeImport } (by decide) rfl
    have h := h0.2.1 ["user"] "user" (by simp)
    simpa using h
  · have h0 := C10_theorem "repo=github.com/x/y,path=out"
      { param := [("path", "out"), ("repo", "github.com/x/y")], importMap := [],
        importPfx := "github.com/x/y/", packageImportPath := "",
        ptype := PathType.pathTypeImport } (by decide) rfl
    have h := h0.2.2 "github.com/x/y" ["user"] true "user" (by simp)
    simpa using h

/-! ### C2: the global type-name index -/

/-- Looking the inserted key up returns the new value. -/
theorem lookupA_insertA_self {α : Type} (m : List (String × α)) (k : String) (v : α) :
    lookupA (insertA m k v) k = some v := by
  simp [lookupA, insertA]

/-- Keys of removed bindings do not affect `find?` for a different key. -/
theorem find?_filter_ne {α : Type} (k k' : String) (h : k' ≠ k) :
    ∀ m : List (String × α),
      List.find? (fun p => p.1 == k') (m.filter (fun p => p.1 ≠ k)) =
        List.find? (fun p => p.1 == k') m := by
  intro m
  induction m with
  | nil => rfl
  | cons p rest ih =>
    rw [List.filter_cons]
    by_cases hp : p.1 = k
    · rw [if_neg (by simp [hp]), ih,
        List.find?_cons_of_neg _ (by simp [hp]; exact fun hc => h hc.symm)]
    · rw [if_pos (by simp [hp])]
      by_cases hq : p.1 = k'
      · rw [List.find?_cons_of_pos _ (by simp [hq]),
            List.find?_cons_of_pos _ (by simp [hq])]
      · rw [List.find?_cons_of_neg _ (by simp [hq]),
            List.find?_cons_of_neg _ (by simp [hq]), ih]

/-- Looking another key up is unaffected by an insertion. -/
theorem lookupA_insertA_ne {α : Type} (m : List (String × α)) (k k' : String) (v : α)
    (h : k' ≠ k) : lookupA (insertA m k v) k' = lookupA m k' := by
  simp only [lookupA, insertA]
  rw [List.find?_cons_of_neg _ (by simpa using Ne.symm h), find?_filter_ne k k' h m]

/-- Inserting entries whose keys all differ from `k` does not change the
lookup of `k`. -/
theorem foldl_insertA_lookup_other {α : Type} :
    ∀ (l : List (String × α)) (acc : List (String × α)) (k : String),
      (∀ kv ∈ l, kv.1 ≠ k) →
      lookupA (l.foldl (fun m kv => insertA m kv.1 kv.2) acc) k = lookupA acc k := by
  intro l
  induction l with
  | nil => intro acc k _; rfl
  | cons p rest ih =>
    intro acc k hk
    rw [List.foldl_cons, ih _ k (fun kv h => hk kv (List.mem_cons_of_mem _ h))]
    exact lookupA_insertA_ne acc p.1 k p.2 (Ne.symm (hk p (List.mem_cons_self _ _)))

/-- When the inserted keys are pairwise distinct, every inserted entry is
found again by its key. -/
theorem foldl_insertA_lookup_mem {α : Type} :
    ∀ (l acc : List (String × α)),
      (l.map Prod.fst).Nodup →
      ∀ kv ∈ l, lookupA (l.foldl (fun m kv => insertA m kv.1 kv.2) acc) kv.1 = some kv.2 := by
  intro l
  induction l with
  | nil => intro acc _ kv h; cases h
  | cons p rest ih =>
    intro acc hnd kv hkv
    rw [List.map_cons] at hnd
    have hnd' := List.nodup_cons.mp hnd
    rw [List.foldl_cons]
    rcases List.mem_cons.mp hkv with rfl | hmem
    · have hnot : ∀ kv' ∈ rest, kv'.1 ≠ kv.1 := by
        intro kv' h' heq
        exact hnd'.1 (heq ▸ List.mem_map_of_mem Prod.fst h')
      rw [foldl_insertA_lookup_other rest _ kv.1 hnot]
      exact lookupA_insertA_self acc kv.1 kv.2
    · exact ih _ hnd'.2 kv hmem

/-- C2, amended: `BuildTypeNameMap` inserts every message's and enum's
dotted fully-qualified name; when the dotted names are pairwise distinct
(the well-formed case), each name maps to exactly the object that was
inserted under it, and `ObjectNamed` of a name absent from the index aborts
fatally with "can't find object with type".  (A duplicate dotted name is
*not* fatal: the later insertion silently overwrites, see the
counterexample.) -/
theorem C2_theorem : ∀ (files : List WFile),
    (((typeEntries files).map Prod.fst).Nodup →
      ∀ kv ∈ typeEntries files, lookupA (buildTypeNameMap files) kv.1 = some kv.2) ∧
    (∀ t, lookupA (buildTypeNameMap files) t = none →
      objectNamed (buildTypeNameMap files) t =
        .error ("can\x27t find object with type " ++ t)) := by
  intro files
  refine ⟨fun hnd kv hkv => ?_, fun t ht => ?_⟩
  · exact foldl_insertA_lookup_mem (typeEntries files) [] hnd kv hkv
  · simp [objectNamed, ht]

/-- The message `M` shared by the two counterexample files of C2. -/
def c2M : DescriptorProto := DescriptorProto.mk "M" [] [] [] none

/-- First counterexample file of C2: package `p`, message `M`. -/
def c2FA : FileDescriptorProto :=
  { name := "a.proto", pkg := some "p", dependency := [], publicDependency := [],
    messageType := [c2M], enumType := [], extension := [], options := none }

/-- Second counterexample file of C2: same package `p`, same message `M`. -/
def c2FB : FileDescriptorProto :=
  { name := "b.proto", pkg := some "p", dependency := [], publicDependency := [],
    messageType := [c2M], enumType := [], extension := [], options := none }

/-- The wrapped first counterexample file of C2. -/
def c2WA : WFile := wrapFile [] "" [] c2FA

/-- The wrapped second counterexample file of C2. -/
def c2WB : WFile := wrapFile [] "" [] c2FB

/-- The object wrapping message `M` of the first counterexample file. -/
def c2ObjA : ObjectRef :=
  { kind := ObjKind.msg, fileName := "a.proto", typeName := ["M"] }

/-- The object wrapping message `M` of the second counterexample file. -/
def c2ObjB : ObjectRef :=
  { kind := ObjKind.msg, fileName := "b.proto", typeName := ["M"] }

/-- C2, counterexample: two wrapped files declaring the same dotted
fully-qualified name `.p.M`.  `BuildTypeNameMap` inserts both — two
declared types, but the index ends up with a single entry and no fatal
error — and looking `.p.M` up returns the second file's object, not the
same object instance that the first file inserted. -/
theorem C2_counterexample :
    (typeEntries [c2WA, c2WB]).length = 2 ∧
    (".p.M", c2ObjA) ∈ typeEntries [c2WA, c2WB] ∧
    (buildTypeNameMap [c2WA, c2WB]).length = 1 ∧
    objectNamed (buildTypeNameMap [c2WA, c2WB]) ".p.M" = .ok c2ObjB ∧
    c2ObjB ≠ c2ObjA := by
  exact ⟨rfl, by decide, rfl, rfl, by decide⟩

/-- C2, witness: the amended theorem applied to a single wrapped file whose
dotted names are distinct, and to a name that is not in the index. -/
theorem C2_witness :
    lookupA (buildTypeNameMap [c2WA]) ".p.M" = some c2ObjA ∧
    objectNamed (buildTypeNameMap [c2WA]) ".q.N" =
      .error ("can\x27t find object with type " ++ ".q.N") := by
  constructor
  · exact (C2_theorem [c2WA]).1 (by decide) (".p.M", c2ObjA) (by decide)
  · exact (C2_theorem [c2WA]).2 ".q.N" (by decide)

/-! ### C7: package consistency across the files to generate -/

/-- A mismatch of import path or package name among the checked files makes
`checkConsistent` fail with one of the two inconsistency messages. -/
theorem checkConsistent_err (f0 : WFile) :
    ∀ l : List WFile,
      (∃ f ∈ l, f.importPath ≠ f0.importPath ∨ f.packageName ≠ f0.packageName) →
      ∃ e, checkConsistent f0 l = .error e ∧
        (∃ x y, e = "inconsistent package import paths: " ++ x ++ ", " ++ y ∨
                e = "inconsistent package names: " ++ x ++ ", " ++ y) := by
  intro l
  induction l with
  | nil => rintro ⟨f, hf, _⟩; cases hf
  | cons f rest ih =>
    rintro ⟨g, hg, hne⟩
    by_cases h1 : f0.importPath ≠ f.importPath
    · exact ⟨_, by simp [checkConsistent, h1],
        ⟨f0.importPath, f.importPath, Or.inl rfl⟩⟩
    · by_cases h2 : f0.packageName ≠ f.packageName
      · exact ⟨_, by simp [checkConsistent, h1, h2],
          ⟨f0.packageName, f.packageName, Or.inr rfl⟩⟩
      · push_neg at h1 h2
        rcases List.mem_cons.mp hg with rfl | hmem
        · rcases hne with hne | hne
          · exact absurd h1.symm hne
          · exact absurd h2.symm hne
        · obtain ⟨e, he, hshape⟩ := ih ⟨g, hmem, hne⟩
          exact ⟨e, by simp [checkConsistent, h1, h2, he], hshape⟩

/-- C7: when the files selected for generation disagree in computed import
path or computed package identity, `SetPackageNames` aborts fatally with an
"inconsistent package ..." error, and the whole run — whatever follows the
naming stage — produces that error and no response. -/
theorem C7_theorem : ∀ (packageImportPath : String) (genFiles : List WFile)
    (a0 : WFile) (arest : List WFile),
    assignPackageNames packageImportPath genFiles = a0 :: arest →
    (∃ a ∈ arest, a.importPath ≠ a0.importPath ∨ a.packageName ≠ a0.packageName) →
    ∃ e, setPackageNames packageImportPath genFiles = .error e ∧
      (∃ x y, e = "inconsistent package import paths: " ++ x ++ ", " ++ y ∨
              e = "inconsistent package names: " ++ x ++ ", " ++ y) ∧
      ∀ (α : Type) (k : String × List WFile → Except String α),
        (setPackageNames packageImportPath genFiles >>= k) = .error e := by
  intro pip genFiles a0 arest hassign hmis
  obtain ⟨e, he, hshape⟩ := checkConsistent_err a0 arest hmis
  refine ⟨e, ?_, hshape, ?_⟩
  · simp [setPackageNames, hassign, he]
  · intro α k
    simp [setPackageNames, hassign, he, Bind.bind, Except.bind]

/-- The first file to generate of the C7 witness: proto package `pa`. -/
def c7FA : FileDescriptorProto :=
  { name := "a/x.proto", pkg := some "pa", dependency := [], publicDependency := [],
    messageType := [], enumType := [], extension := [], options := none }

/-- The second file to generate of the C7 witness: proto package `pb`. -/
def c7FB : FileDescriptorProto :=
  { name := "a/y.proto", pkg := some "pb", dependency := [], publicDependency := [],
    messageType := [], enumType := [], extension := [], options := none }

/-- C7, witness: two files to generate sharing the import path but deriving
different package identities (`pa` versus `pb`) make `SetPackageNames`
fail. -/
theorem C7_witness :
    ∃ e, setPackageNames ""
        [wrapFile [] "" ["a/x.proto", "a/y.proto"] c7FA,
         wrapFile [] "" ["a/x.proto", "a/y.proto"] c7FB] = .error e ∧
      (∃ x y, e = "inconsistent package import paths: " ++ x ++ ", " ++ y ∨
              e = "inconsistent package names: " ++ x ++ ", " ++ y) := by
  obtain ⟨e, he, hshape, _⟩ := C7_theorem ""
    [wrapFile [] "" ["a/x.proto", "a/y.proto"] c7FA,
     wrapFile [] "" ["a/x.proto", "a/y.proto"] c7FB]
    { proto := c7FA, desc := [], enum := [], ext := [],
      importPath := "a", packageName := "pa" }
    [{ proto := c7FB, desc := [], enum := [], ext := [],
       importPath := "a", packageName := "pb" }]
    (by rfl) (by simp)
  exact ⟨e, he, hshape⟩

/-! ### C4: public imports re-export the whole flat message list -/

/-- Membership characterization of the public-import loop: a symbol is
re-exported into the file iff some public dependency edge reaches a wrapped
file contributing it through `importedOfDep`. -/
theorem wrapImportedGo_mem (byName : List (String × WFile)) (fname : String)
    (dep : List String) :
    ∀ (pubs : List Nat) (l : List ImportedObj),
      wrapImportedGo byName fname dep pubs = .ok l →
      ∀ x, x ∈ l ↔ ∃ i ∈ pubs, ∃ dn df, dep.get? i = some dn ∧
        lookupA byName dn = some df ∧ x ∈ importedOfDep fname df := by
  intro pubs
  induction pubs with
  | nil =>
    intro l h x
    cases h
    simp
  | cons i rest ih =>
    intro l h x
    unfold wrapImportedGo at h
    cases hget : dep.get? i with
    | none => rw [hget] at h; cases h
    | some dn =>
      rw [hget] at h
      dsimp only at h
      cases hlook : lookupA byName dn with
      | none => rw [hlook] at h; cases h
      | some df =>
        rw [hlook] at h
        dsimp only at h
        cases hrec : wrapImportedGo byName fname dep rest with
        | error e => rw [hrec] at h; cases h
        | ok tail =>
          rw [hrec] at h
          dsimp only at h
          cases h
          constructor
          · intro hx
            rcases List.mem_append.mp hx with hx | hx
            · exact ⟨i, List.mem_cons_self _ _, dn, df, hget, hlook, hx⟩
            · obtain ⟨i', hi', dn', df', e1, e2, e3⟩ := (ih tail hrec x).mp hx
              exact ⟨i', List.mem_cons_of_mem _ hi', dn', df', e1, e2, e3⟩
          · rintro ⟨i', hi', dn', df', e1, e2, e3⟩
            rcases List.mem_cons.mp hi' with rfl | hmem
            · rw [hget] at e1
              cases e1
              rw [hlook] at e2
              cases e2
              exact List.mem_append.mpr (Or.inl e3)
            · exact List.mem_append.mpr
                (Or.inr ((ih tail hrec x).mpr ⟨i', hmem, dn', df', e1, e2, e3⟩))

/-- C4, amended: `wrapImported` re-exports, per publicly imported file, an
alias for *every* message of its flat wrapped message list — top-level and
nested alike — except synthetic map entries, plus every enum and every
top-level extension; each alias holds a reference to the dependency's own
object, so no declaration is duplicated. -/
theorem C4_theorem : ∀ (byName : List (String × WFile)) (file : WFile)
    (l : List ImportedObj),
    wrapImported byName file = .ok l →
    ∀ x, x ∈ l ↔ ∃ i ∈ file.proto.publicDependency, ∃ dn df,
      file.proto.dependency.get? i = some dn ∧ lookupA byName dn = some df ∧
      x ∈ importedOfDep file.proto.name df := by
  intro byName file l h x
  exact wrapImportedGo_mem byName file.proto.name file.proto.dependency
    file.proto.publicDependency l h x

/-- The nested message of the C4 counterexample dependency. -/
def c4Inner : DescriptorProto := DescriptorProto.mk "Inner" [] [] [] none

/-- The top-level message of the C4 counterexample dependency, containing
`Inner`. -/
def c4Outer : DescriptorProto := DescriptorProto.mk "Outer" [] [c4Inner] [] none

/-- The publicly imported dependency file of the C4 counterexample. -/
def c4FB : FileDescriptorProto :=
  { name := "b.proto", pkg := some "pb", dependency := [], publicDependency := [],
    messageType := [c4Outer], enumType := [], extension := [], options := none }

/-- The importing file of the C4 counterexample, reaching `b.proto` through
a public dependency edge. -/
def c4FA : FileDescriptorProto :=
  { name := "a.proto", pkg := some "pa", dependency := ["b.proto"],
    publicDependency := [0], messageType := [], enumType := [], extension := [],
    options := none }

/-- The wrapped importing file of the C4 counterexample. -/
def c4WA : WFile := wrapFile [] "" [] c4FA

/-- The wrapped dependency file of the C4 counterexample. -/
def c4WB : WFile := wrapFile [] "" [] c4FB

/-- C4, counterexample: the public import of `b.proto` re-exports not only
the top-level `Outer` but also the nested message `Outer.Inner` — the flat
message list `df.desc` of the dependency contains nested messages, and the
loop does not restrict itself to top-level ones. -/
theorem C4_counterexample :
    wrapImported (filesByName [c4WA, c4WB]) c4WA =
      .ok [{ importingFile := "a.proto",
             o := { kind := ObjKind.msg, fileName := "b.proto", typeName := ["Outer"] } },
           { importingFile := "a.proto",
             o := { kind := ObjKind.msg, fileName := "b.proto",
                    typeName := ["Outer", "Inner"] } }] ∧
    ({ importingFile := "a.proto",
       o := { kind := ObjKind.msg, fileName := "b.proto",
              typeName := ["Outer", "Inner"] } } : ImportedObj).o.typeName.length = 2 := by
  exact ⟨rfl, rfl⟩

/-- C4, witness: the membership characterization applied to the concrete
two-file instance, showing the nested `Outer.Inner` alias is among the
re-exported symbols because it is in the dependency's contribution. -/
theorem C4_witness :
    ({ importingFile := "a.proto",
       o := { kind := ObjKind.msg, fileName := "b.proto",
              typeName := ["Outer", "Inner"] } } : ImportedObj) ∈
      [({ importingFile := "a.proto",
          o := { kind := ObjKind.msg, fileName := "b.proto", typeName := ["Outer"] } } : ImportedObj),
       { importingFile := "a.proto",
         o := { kind := ObjKind.msg, fileName := "b.proto",
                typeName := ["Outer", "Inner"] } }] := by
  refine (C4_theorem (filesByName [c4WA, c4WB]) c4WA _ rfl _).mpr
    ⟨0, by decide, "b.proto", c4WB, rfl, rfl, ?_⟩
  decide

/-! ### C1: when the "http mapping not found" error fires -/

/-- The single field of the C1 input message `Req`. -/
def c1Field : FieldDescriptorProto :=
  { name := "x", ftype := FieldType.scalar, typeName := "" }

/-- The C1 file: package `pa` with the one-field message `Req`. -/
def c1FA : FileDescriptorProto :=
  { name := "a.proto", pkg := some "pa", dependency := [], publicDependency := [],
    messageType := [DescriptorProto.mk "Req" [c1Field] [] [] none], enumType := [],
    extension := [], options := none }

/-- The wrapped C1 file. -/
def c1WA : WFile := wrapFile [] "" ["a.proto"] c1FA

/-- The generator state while emitting the C1 file. -/
def c1St : GenState :=
  { typeNameToObject := buildTypeNameMap [c1WA], fileDesc := c1WA.desc,
    outputImportPath := "a.proto", packageNames := [], usedPackageNames := [],
    usedPackages := [], addedImports := [], genErrorCode := "" }

/-- The C1 counterexample method: its `google.api.http` annotation is
present but carries a pattern that is neither GET nor POST. -/
def c1M : MethodDescriptorProto :=
  { name := "do_thing", inputType := ".pa.Req", outputType := ".pa.Req",
    options := some { http := some { pattern := HttpPattern.other, responseBody := "" } } }

/-- The C1 witness method: no `google.api.http` annotation at all. -/
def c1MNoOpt : MethodDescriptorProto :=
  { name := "do_thing", inputType := ".pa.Req", outputType := ".pa.Req",
    options := none }

/-- The lines `generateClientMethod` emits for the C1 counterexample
method: a route-less closure body. -/
def c1CexLines : List String :=
  ["input, output := Req\x7b\x7d, Req\x7b\x7d", "",
   "if err := ctx.ShouldBindBodyWith(&input, binding.JSON); err != nil \x7b",
   "router.Error(ctx, 500, err)", "return", "\x7d", "",
   "err := h.DoThing(ctx.Copy(), &input, &output)", "if err != nil \x7b",
   "router.Error(ctx, 500, err)", "return", "\x7d", "",
   "router.JSON(ctx, &output)", "\x7d)", ""]

/-- C1, counterexample: a method whose annotation is present but carries
neither a GET nor a POST pattern does *not* abort with the
"http mapping not found"-class error — generation of the method succeeds,
emitting a closure with no route-registration line (the first claim half,
"never emits a route", does hold). -/
theorem C1_counterexample :
    generateClientMethod c1St "pa" "S" c1M [] = .ok (c1St, c1CexLines, true) ∧
    c1CexLines.all (fun l =>
      !(strHasPrefix l "g.GET(" || strHasPrefix l "g.POST(" ||
        strHasPrefix l "router.Handle(")) = true := by
  exact ⟨rfl, rfl⟩

/-- C1, amended: provided both type references resolve, the fatal
"option google.api.http not found" error fires exactly when the method's
options lack the `google.api.http` annotation; with the annotation present
— whatever its pattern — the method generates successfully, and a pattern
that is neither GET nor POST contributes no route line at all. -/
theorem C1_theorem : ∀ (st : GenState) (reqServ servName : String)
    (m : MethodDescriptorProto) (ann : List (String × String))
    (inT0 : String) (st1 : GenState) (outT0 : String) (st2 : GenState),
    typeNameSt st m.inputType = .ok (inT0, st1) →
    typeNameSt st1 m.outputType = .ok (outT0, st2) →
    (hasHttpExt m = none →
      generateClientMethod st reqServ servName m ann =
        .error "option google.api.http not found") ∧
    (∀ r, hasHttpExt m = some r →
      (generateClientMethod st reqServ servName m ann).isOk = true) ∧
    (∀ r, hasHttpExt m = some r → r.pattern = HttpPattern.other →
      (routeLinesOf r.pattern (middlewaresOf ann)).2 = []) := by
  intro st reqServ servName m ann inT0 st1 outT0 st2 h1 h2
  refine ⟨fun hn => ?_, fun r hr => ?_, fun r hr hp => ?_⟩
  · unfold generateClientMethod
    rw [h1]
    dsimp only
    rw [h2]
    dsimp only
    rw [hn]
  · unfold generateClientMethod
    rw [h1]
    dsimp only
    rw [h2]
    dsimp only
    rw [hr]
    rfl
  · rw [hp]
    rfl

/-- C1, witness: the amended theorem applied to the annotation-less method
on the concrete state — generation aborts with the expected error. -/
theorem C1_witness :
    generateClientMethod c1St "pa" "S" c1MNoOpt [] =
      .error "option google.api.http not found" := by
  exact (C1_theorem c1St "pa" "S" c1MNoOpt [] "Req" c1St "Req" c1St rfl rfl).1 rfl

/-! ### C5: GET methods always bind from the query string -/

/-- C5: for a method carrying a GET pattern whose input needs binding, the
emitted closure binds through `ctx.ShouldBindQuery` — with or without the
error check, according to `bindcheck` — for *every* directive map, i.e.
whatever value the `binding` directive carries. -/
theorem C5_theorem : ∀ (st : GenState) (reqServ servName : String)
    (m : MethodDescriptorProto) (ann : List (String × String)) (url : String)
    (rule : HttpRule) (inT0 : String) (st1 : GenState) (outT0 : String) (st2 : GenState),
    typeNameSt st m.inputType = .ok (inT0, st1) →
    typeNameSt st1 m.outputType = .ok (outT0, st2) →
    hasHttpExt m = some rule →
    rule.pattern = HttpPattern.get url →
    (computeNeedBind st1.fileDesc inT0).2 = true →
    ∀ (st' : GenState) (lines : List String) (nb : Bool),
      generateClientMethod st reqServ servName m ann = .ok (st', lines, nb) →
      nb = true ∧
      (if bindCheckOf ann then "if err := ctx.ShouldBindQuery(&input); err != nil \x7b"
       else "_ = ctx.ShouldBindQuery(&input)") ∈ lines := by
  intro st reqServ servName m ann url rule inT0 st1 outT0 st2 h1 h2 hr hp hnb st' lines nb hok
  unfold generateClientMethod at hok
  rw [h1] at hok
  dsimp only at hok
  rw [h2] at hok
  dsimp only at hok
  rw [hr] at hok
  dsimp only at hok
  rw [hp] at hok
  rw [hnb] at hok
  dsimp only [routeLinesOf] at hok
  cases hok
  refine ⟨rfl, ?_⟩
  by_cases hbc : bindCheckOf ann
  · simp [bindSectionLines, hbc]
  · simp [bindSectionLines, hbc]

/-- The C5 file: package `pa` with the one-field message `Req`. -/
def c5FA : FileDescriptorProto :=
  { name := "a.proto", pkg := some "pa", dependency := [], publicDependency := [],
    messageType := [DescriptorProto.mk "Req"
      [{ name := "x", ftype := FieldType.scalar, typeName := "" }] [] [] none],
    enumType := [], extension := [], options := none }

/-- The wrapped C5 file. -/
def c5WA : WFile := wrapFile [] "" ["a.proto"] c5FA

/-- The generator state while emitting the C5 file. -/
def c5St : GenState :=
  { typeNameToObject := buildTypeNameMap [c5WA], fileDesc := c5WA.desc,
    outputImportPath := "a.proto", packageNames := [], usedPackageNames := [],
    usedPackages := [], addedImports := [], genErrorCode := "" }

/-- The C5 method: a GET route whose leading comment carries
`binding:form`. -/
def c5M : MethodDescriptorProto :=
  { name := "do_thing", inputType := ".pa.Req", outputType := ".pa.Req",
    options := some { http := some { pattern := HttpPattern.get "/q", responseBody := "" } } }

/-- The lines emitted for the C5 method under the `binding:form`
directive: the bind call is still `ShouldBindQuery`. -/
def c5Lines : List String :=
  ["g.GET(\"/q\", func(ctx *gin.Context) \x7b",
   "input, output := Req\x7b\x7d, Req\x7b\x7d", "",
   "if err := ctx.ShouldBindQuery(&input); err != nil \x7b",
   "router.Error(ctx, 500, err)", "return", "\x7d", "",
   "err := h.DoThing(ctx.Copy(), &input, &output)", "if err != nil \x7b",
   "router.Error(ctx, 500, err)", "return", "\x7d", "",
   "router.JSON(ctx, &output)", "\x7d)", ""]

/-- C5, witness: the theorem applied to the concrete GET method with a
`binding:form` directive — the emitted bind call is still the query
binder. -/
theorem C5_witness :
    "if err := ctx.ShouldBindQuery(&input); err != nil \x7b" ∈ c5Lines := by
  have h := C5_theorem c5St "pa" "S" c5M [("binding", "form")] "/q"
    { pattern := HttpPattern.get "/q", responseBody := "" } "Req" c5St "Req" c5St
    rfl rfl rfl rfl rfl c5St c5Lines true rfl
  simpa [show bindCheckOf [("binding", "form")] = true from rfl] using h.2

/-! ### C6: when request binding is skipped -/

/-- C6, amended: the emitted closure skips request binding exactly when the
resolved input type is the empty-input marker (`types.Empty`/`empty.Empty`,
rewritten to `router.Empty`) or when the first non-map-entry message *of
the file being generated* whose generated name equals the resolved input
type declares zero fields; the flag the method returns is exactly this
`computeNeedBind` decision.  (A zero-field input message declared in a
different file does not match the scan and still gets a bind call, see the
counterexample.) -/
theorem C6_theorem : ∀ (st : GenState) (reqServ servName : String)
    (m : MethodDescriptorProto) (ann : List (String × String))
    (inT0 : String) (st1 : GenState) (outT0 : String) (st2 : GenState) (rule : HttpRule),
    typeNameSt st m.inputType = .ok (inT0, st1) →
    typeNameSt st1 m.outputType = .ok (outT0, st2) →
    hasHttpExt m = some rule →
    (∀ (st' : GenState) (lines : List String) (nb : Bool),
      generateClientMethod st reqServ servName m ann = .ok (st', lines, nb) →
      nb = (computeNeedBind st1.fileDesc inT0).2) ∧
    ((computeNeedBind st1.fileDesc inT0).2 = false ↔
      inT0 = "types.Empty" ∨ inT0 = "empty.Empty" ∨
      ∃ d, findBindDesc st1.fileDesc inT0 = some d ∧ d.field = []) := by
  intro st reqServ servName m ann inT0 st1 outT0 st2 rule h1 h2 hr
  constructor
  · intro st' lines nb hok
    unfold generateClientMethod at hok
    rw [h1] at hok
    dsimp only at hok
    rw [h2] at hok
    dsimp only at hok
    rw [hr] at hok
    dsimp only at hok
    cases hok
    rfl
  · unfold computeNeedBind
    by_cases hm : (inT0 == "types.Empty" || inT0 == "empty.Empty") = true
    · rw [if_pos hm]
      simp only [beq_iff_eq, Bool.or_eq_true] at hm
      simp [hm.imp id Or.inl]
    · rw [if_neg hm]
      simp only [beq_iff_eq, Bool.or_eq_true, not_or] at hm
      cases hf : findBindDesc st1.fileDesc inT0 with
      | none => simp [hm.1, hm.2]
      | some d => simp [hm.1, hm.2, List.length_eq_zero]

/-- The zero-field message `Foo` of the C6 counterexample, declared in the
*other* file `b/b.proto`. -/
def c6FooProto : DescriptorProto := DescriptorProto.mk "Foo" [] [] [] none

/-- The C6 dependency file declaring the zero-field `Foo`. -/
def c6FB : FileDescriptorProto :=
  { name := "b/b.proto", pkg := some "pb", dependency := [], publicDependency := [],
    messageType := [c6FooProto], enumType := [], extension := [], options := none }

/-- The C6 file being generated (package `pa`). -/
def c6FA : FileDescriptorProto :=
  { name := "a/a.proto", pkg := some "pa", dependency := [], publicDependency := [],
    messageType := [DescriptorProto.mk "Req"
      [{ name := "x", ftype := FieldType.scalar, typeName := "" }] [] [] none],
    enumType := [], extension := [], options := none }

/-- The wrapped C6 file being generated. -/
def c6WA : WFile := wrapFile [] "" ["a/a.proto"] c6FA

/-- The wrapped C6 dependency file. -/
def c6WB : WFile := wrapFile [] "" ["a/a.proto"] c6FB

/-- The generator state while emitting the C6 file. -/
def c6St : GenState :=
  { typeNameToObject := buildTypeNameMap [c6WA, c6WB], fileDesc := c6WA.desc,
    outputImportPath := "a/a.proto", packageNames := [], usedPackageNames := [],
    usedPackages := [], addedImports := [], genErrorCode := "" }

/-- The generator state after resolving the cross-file input type of the
C6 method. -/
def c6St' : GenState :=
  { typeNameToObject := buildTypeNameMap [c6WA, c6WB], fileDesc := c6WA.desc,
    outputImportPath := "a/a.proto", packageNames := [("b/b.proto", "b")],
    usedPackageNames := ["b"], usedPackages := ["b/b.proto"],
    addedImports := ["b/b.proto"], genErrorCode := "" }

/-- The C6 method: a POST route whose input is the zero-field `Foo` of the
other file. -/
def c6M : MethodDescriptorProto :=
  { name := "do_thing", inputType := ".pb.Foo", outputType := ".pb.Foo",
    options := some { http := some { pattern := HttpPattern.post "/x", responseBody := "" } } }

/-- The lines emitted for the C6 method: a bind call is present although the
input message declares zero fields. -/
def c6Lines : List String :=
  ["g.POST(\"/x\", func(ctx *gin.Context) \x7b",
   "input, output := b.Foo\x7b\x7d, b.Foo\x7b\x7d", "",
   "if err := ctx.ShouldBindBodyWith(&input, binding.JSON); err != nil \x7b",
   "router.Error(ctx, 500, err)", "return", "\x7d", "",
   "err := h.DoThing(ctx.Copy(), &input, &output)", "if err != nil \x7b",
   "router.Error(ctx, 500, err)", "return", "\x7d", "",
   "router.JSON(ctx, &output)", "\x7d)", ""]

/-- C6, counterexample: the input type resolves to the zero-field message
`Foo` declared in the other file `b/b.proto`; it is not the empty-input
marker, yet binding is *not* skipped — the closure carries a
`ShouldBindBodyWith` call and the method returns `needBind = true`,
contradicting the claim's "skips exactly when ... the input message
declares zero fields". -/
theorem C6_counterexample :
    generateClientMethod c6St "pa" "S" c6M [] = .ok (c6St', c6Lines, true) ∧
    "if err := ctx.ShouldBindBodyWith(&input, binding.JSON); err != nil \x7b" ∈ c6Lines ∧
    objectNamed c6St.typeNameToObject ".pb.Foo" =
      .ok { kind := ObjKind.msg, fileName := "b/b.proto", typeName := ["Foo"] } ∧
    c6FooProto.field = [] ∧
    typeNameSt c6St ".pb.Foo" = .ok ("b.Foo", c6St') ∧
    ("b.Foo" ≠ "types.Empty" ∧ "b.Foo" ≠ "empty.Empty") := by
  exact ⟨rfl, by decide, rfl, rfl, rfl, by decide, by decide⟩

/-- C6, witness: the amended theorem applied to the concrete cross-file
method — the returned flag equals the `computeNeedBind` decision (here
`true`: the scan of the generated file's own messages finds no match for
`b.Foo`), and the characterization holds at this input. -/
theorem C6_witness :
    (true = (computeNeedBind c6St'.fileDesc "b.Foo").2) ∧
    ((computeNeedBind c6St'.fileDesc "b.Foo").2 = false ↔
      "b.Foo" = "types.Empty" ∨ "b.Foo" = "empty.Empty" ∨
      ∃ d, findBindDesc c6St'.fileDesc "b.Foo" = some d ∧ d.field = []) := by
  have h := C6_theorem c6St "pa" "S" c6M [] "b.Foo" c6St' "b.Foo" c6St'
    { pattern := HttpPattern.post "/x", responseBody := "" } rfl rfl rfl
  exact ⟨h.1 c6St' c6Lines true rfl, h.2⟩

end ProtocGenRain
